import Mathlib

/-!
Shallow embedding of the core of the Agentic Noir repository:
`src/utils/memory_manager.py`, the persistence part of `src/agents/director.py`,
`src/core/game_engine.py` and `src/core/connection_manager.py`.

Python dicts (insertion ordered) are modelled as association lists over `String`
keys; a possibly-absent dict field is an `Option`; a Python function that can
raise is modelled in `Except Unit`; the world-state / world-memory JSON files
are threaded explicitly as values, and a function "persists" a change by
returning the new value (a code path that never reaches `save_memory` /
`save_json_data` returns the unchanged value).  The two LLM chains are
external oracles, passed in as `Except`-valued arguments.
-/

/-- `d[k]` lookup on a Python dict: the value at the first matching key. -/
def dictGet {α : Type} : List (String × α) → String → Option α
  | [], _ => none
  | (k', v') :: rest, k => if k' = k then some v' else dictGet rest k

/-- `k in d` on a Python dict. -/
def dictContains {α : Type} (d : List (String × α)) (k : String) : Bool :=
  (dictGet d k).isSome

/-- `d[k] = v` on a Python dict: update in place if the key exists, else append. -/
def dictSet {α : Type} : List (String × α) → String → α → List (String × α)
  | [], k, v => [(k, v)]
  | (k', v') :: rest, k, v =>
    if k' = k then (k, v) :: rest else (k', v') :: dictSet rest k v

/-- `d.pop(k)` on a Python dict (keys are unique, so removing every match agrees). -/
def dictRemove {α : Type} (d : List (String × α)) (k : String) : List (String × α) :=
  d.filter (fun e => !(e.1 == k))

/-- Python `l[-n:]`. -/
def lastN {α : Type} (n : Nat) (l : List α) : List α :=
  l.drop (l.length - n)

/-- Whether an `Except` value is an exception. -/
def exceptIsError {ε α : Type} : Except ε α → Bool
  | Except.error _ => true
  | Except.ok _ => false

/-- Python truthiness of an optional string field (`None` and `""` are falsy). -/
def truthyStr : Option String → Bool
  | none => false
  | some s => s != ""

/-- Python `list(set(l))` for string lists.  CPython's set iteration order is
unspecified; this fixes one order (first occurrences kept).  No claim in this
development depends on the order of a set-built list. -/
def pySetList (l : List String) : List String :=
  l.eraseDups

/-! ## World Memory Store data model (`src/utils/memory_manager.py`) -/

/-- A record in `memory["generated_items"]`.  Fields read with `.get` in the
source may be absent and are `Option`-valued; `portable` absent means the
portability check `item.get("portable", True)` defaults to true. -/
structure Item where
  id : String
  name : String
  description : String
  portable : Option Bool
  category : Option String
  original_location : Option String
  current_location : Option String
  inspected : Option Bool
  taken : Option Bool
  is_key_clue : Option Bool
deriving DecidableEq, Repr

/-- One element of a location record's `"items"` list.  The repository stores
two shapes there: `_save_generated_content` (src/agents/director.py) writes
plain id strings, while `transfer_item_to_inventory`'s removal step reads each
element with `i.get("id")`, which only works on dict records and raises
`AttributeError` on a plain string. -/
inductive LocEntry where
  | idStr : String → LocEntry
  | record : Option String → LocEntry
deriving DecidableEq, Repr

/-- A record in `memory["generated_locations"]`.  `last_visited` is read by
`prune_old_locations` with `.get("last_visited", 0)`; the source stores the
boolean `True` there, which in Python sorts as the number 1, so the stamp is
modelled as an integer. -/
structure LocationData where
  items : Option (List LocEntry)
  npcs : List String
  last_visited : Option Int
deriving DecidableEq, Repr

/-- A record in `memory["generated_npcs"]`. -/
structure Npc where
  id : String
  name : String
  role : String
  personality : String
  knowledge : List String
  current_location : Option String
  statements : List (Int × String)
deriving DecidableEq, Repr

/-- The whole world-memory JSON document. -/
structure Memory where
  generated_locations : List (String × LocationData)
  generated_items : List (String × Item)
  generated_npcs : List (String × Npc)
  team_inventory : List (String × List String)
  player_notes : List String
deriving DecidableEq, Repr

/-- `_get_default_memory`. -/
def default_memory : Memory :=
  { generated_locations := []
    generated_items := []
    generated_npcs := []
    team_inventory := [("bag", []), ("pockets", [])]
    player_notes := [] }

/-- `save_item`: overwrite the whole record under `item_id`. -/
def save_item (mem : Memory) (item_id : String) (item : Item) : Memory :=
  { mem with generated_items := dictSet mem.generated_items item_id item }

/-- `save_npc`. -/
def save_npc (mem : Memory) (npc_id : String) (npc : Npc) : Memory :=
  { mem with generated_npcs := dictSet mem.generated_npcs npc_id npc }

/-- `save_location`. -/
def save_location (mem : Memory) (location_id : String) (d : LocationData) : Memory :=
  { mem with generated_locations := dictSet mem.generated_locations location_id d }

/-- The list comprehension
`[i for i in loc_data["items"] if i.get("id") != item_id]`:
raises (`AttributeError`) if any element is a plain string, otherwise keeps
every record whose `id` differs from `item_id`. -/
def filterOutId (item_id : String) : List LocEntry → Except Unit (List LocEntry)
  | [] => Except.ok []
  | LocEntry.idStr _ :: _ => Except.error ()
  | LocEntry.record oid :: rest =>
    match filterOutId item_id rest with
    | Except.error e => Except.error e
    | Except.ok r =>
      Except.ok (if oid = some item_id then r else LocEntry.record oid :: r)

/-- The two source lines that ensure the container key exists
(`if container not in memory["team_inventory"]: ... = []`). -/
def ensuredInv (inv : List (String × List String)) (container : String) :
    List (String × List String) :=
  if dictContains inv container then inv else dictSet inv container []

/-- `transfer_item_to_inventory(item_id, container)`.  The first component is
the Python return value (or an exception), the second is the persisted memory
after the call: every early return and the exception path happen before
`save_memory`, so they leave the stored document unchanged. -/
def transfer_item_to_inventory (mem : Memory) (item_id : String) (container : String) :
    Except Unit Bool × Memory :=
  match dictGet mem.generated_items item_id with
  | none => (Except.ok false, mem)
  | some item =>
    if item.portable.getD true = false then
      (Except.ok false, mem)
    else
      let inv0 := ensuredInv mem.team_inventory container
      let contList := (dictGet inv0 container).getD []
      if item_id ∈ contList then
        (Except.ok true, mem)
      else
        let inv1 := dictSet inv0 container (contList ++ [item_id])
        let item1 := { item with
          current_location := some (String.append "inventory." container)
          taken := some true }
        let items1 := dictSet mem.generated_items item_id item1
        match item.original_location with
        | some oloc =>
          if oloc = "" then
            (Except.ok true, { mem with generated_items := items1, team_inventory := inv1 })
          else
            match dictGet mem.generated_locations oloc with
            | some locData =>
              match locData.items with
              | some entries =>
                match filterOutId item_id entries with
                | Except.error e => (Except.error e, mem)
                | Except.ok entries1 =>
                  (Except.ok true,
                   { mem with
                     generated_items := items1
                     team_inventory := inv1
                     generated_locations :=
                       dictSet mem.generated_locations oloc { locData with items := some entries1 } })
              | none =>
                (Except.ok true, { mem with generated_items := items1, team_inventory := inv1 })
            | none =>
              (Except.ok true, { mem with generated_items := items1, team_inventory := inv1 })
        | none =>
          (Except.ok true, { mem with generated_items := items1, team_inventory := inv1 })

/-- Stable insertion of `x` into a list already sorted by descending key:
`x` goes after every element whose key is ≥ its own. -/
def insertDescBy {α : Type} (key : α → Int) (x : α) : List α → List α
  | [] => [x]
  | y :: ys => if key x > key y then x :: y :: ys else y :: insertDescBy key x ys

/-- Python `sorted(l, key=key, reverse=True)`: stable, descending by key. -/
def stableSortDescBy {α : Type} (key : α → Int) (l : List α) : List α :=
  l.foldl (fun acc x => insertDescBy key x acc) []

/-- `prune_old_locations(keep_count)`: keep the `keep_count` locations with the
greatest `last_visited` stamp (ties keep dict order); no other check. -/
def prune_old_locations (mem : Memory) (keep_count : Nat) : Memory :=
  let locations := mem.generated_locations
  if locations.length ≤ keep_count then mem
  else
    let sorted_locs := stableSortDescBy (fun p => p.2.last_visited.getD 0) locations
    { mem with generated_locations := sorted_locs.take keep_count }

/-- Whether some stored item record sits at `loc` as an un-taken key clue. -/
def hostsUntakenKeyClue (mem : Memory) (loc : String) : Bool :=
  mem.generated_items.any (fun e =>
    e.2.current_location == some loc && e.2.is_key_clue.getD false &&
      !(e.2.taken.getD false))

/-! ## Turn pipeline (`src/agents/director.py`, `src/core/game_engine.py`)

Python floats (`progress`) are only stored and copied in the embedded
fragment, never computed with, so they are modelled by `Int`. -/

/-- `NarratorEvent` schema from src/agents/director.py. -/
structure NarratorEvent where
  event_type : String
  description : String
  items_visible : List String
  npcs_present : List String
  dialogue : Option String
  npc_emotion : Option String
  block_reason : Option String
deriving DecidableEq, Repr

/-- `GeneratedItem` schema; `portable`/`category` are read back with `.get`
defaults by `_save_generated_content`, so they are `Option`-valued. -/
structure GeneratedItem where
  id : String
  name : String
  description : String
  portable : Option Bool
  category : Option String
deriving DecidableEq, Repr

/-- `GeneratedNPC` schema. -/
structure GeneratedNpc where
  id : String
  name : String
  role : String
  personality : String
  knowledge : List String
deriving DecidableEq, Repr

/-- `DirectorDecision` schema. -/
structure DirectorDecision where
  narrator_event : NarratorEvent
  generated_items : List GeneratedItem
  generated_npcs : List GeneratedNpc
  interactables : List String
  new_location : String
  clues_discovered : List String
  suspects_interviewed : List String
  items_taken : List String
  progress_update : Int
deriving DecidableEq, Repr

/-- `ScriptLine` schema from src/agents/narrator.py. -/
structure ScriptLine where
  speaker : String
  style : String
  text : String
  voice_suggestion : String
  audio_url : String
deriving DecidableEq, Repr

/-- `NarratorScene` schema. -/
structure NarratorScene where
  scene : List ScriptLine
deriving DecidableEq, Repr

/-- One entry of `solution["key_clues"]` (data/solution.json). -/
structure KeyClue where
  id : String
  name : String
  description : String
deriving DecidableEq, Repr

/-- One entry of `world_state["conversation_history"]`:
either `{"role": "player", "action": ...}` or `{"role": speaker, "dialogue": ...}`. -/
inductive HistEntry where
  | player : String → HistEntry
  | dialogue : String → String → HistEntry
deriving DecidableEq, Repr

/-- The world-state JSON document (`data/world_state.json`). -/
structure WorldState where
  current_location : Option String
  progress : Int
  visited_locations : List String
  discovered_clues : List String
  interviewed_suspects : List String
  conversation_history : List HistEntry
deriving DecidableEq, Repr

/-- `get_current_location`. -/
def get_current_location (ws : WorldState) : String :=
  ws.current_location.getD "The Silver Gull"

/-- The trailing loop of `_save_generated_content`: transfer every id in
`items_taken` to the default container `"bag"`; an exception from a transfer
propagates, leaving the memory persisted up to that point. -/
def transferTakenList : List String → Memory → Except Unit Unit × Memory
  | [], m => (Except.ok (), m)
  | item_id :: rest, m =>
    match transfer_item_to_inventory m item_id "bag" with
    | (Except.error e, m1) => (Except.error e, m1)
    | (Except.ok _, m1) => transferTakenList rest m1

/-- `_save_generated_content(decision, location)`: persist generated items and
NPCs stamped with `location`, save the location record (its `"items"` list is
written as plain id strings), then transfer `items_taken`.  Every
`save_*` call persists individually, so a late exception leaves the earlier
saves committed (second component is the memory actually persisted). -/
def save_generated_content (d : DirectorDecision) (location : String) (mem : Memory) :
    Except Unit Unit × Memory :=
  let memA := d.generated_items.foldl (fun m i =>
    save_item m i.id
      { id := i.id
        name := i.name
        description := i.description
        portable := some (i.portable.getD true)
        category := some (i.category.getD "small_object")
        original_location := some location
        current_location := some location
        inspected := some false
        taken := some false
        is_key_clue := none }) mem
  let memB := d.generated_npcs.foldl (fun m n =>
    save_npc m n.id
      { id := n.id
        name := n.name
        role := n.role
        personality := n.personality
        knowledge := n.knowledge
        current_location := some location
        statements := [] }) memA
  let memC :=
    if d.generated_items ≠ [] ∨ d.generated_npcs ≠ [] then
      save_location memB location
        { items := some (d.generated_items.map (fun i => LocEntry.idStr i.id))
          npcs := d.generated_npcs.map (fun n => n.id)
          last_visited := some 1 }
    else memB
  transferTakenList d.items_taken memC

/-- `invoke_director(player_action, world_state)` with the LLM chain call
abstracted as the oracle outcome `chainResult`; on chain success the generated
content is persisted before returning. -/
def invoke_director (chainResult : Except Unit DirectorDecision)
    (ws : WorldState) (mem : Memory) : Except Unit DirectorDecision × Memory :=
  match chainResult with
  | Except.error e => (Except.error e, mem)
  | Except.ok d =>
    match save_generated_content d (get_current_location ws) mem with
    | (Except.ok _, m1) => (Except.ok d, m1)
    | (Except.error e, m1) => (Except.error e, m1)

/-- The items-taken loop of `run_game_turn_sync`: for each taken id, a key-clue
id (`c1`/`c2`/`c3`) first gets its canonical record materialised from the
authored solution, then the id is transferred to the `"bag"` container. -/
def handle_items_taken (solution_key_clues : List KeyClue) :
    List String → Memory → Except Unit Unit × Memory
  | [], m => (Except.ok (), m)
  | item_id :: rest, m =>
    let m1 :=
      if item_id ∈ ["c1", "c2", "c3"] then
        match solution_key_clues.find? (fun c => c.id == item_id) with
        | some clue =>
          save_item m item_id
            { id := item_id
              name := clue.name
              description := clue.description
              portable := some true
              category := some "evidence"
              original_location := none
              current_location := none
              inspected := none
              taken := none
              is_key_clue := some true }
        | none => m
      else m
    match transfer_item_to_inventory m1 item_id "bag" with
    | (Except.error e, m2) => (Except.error e, m2)
    | (Except.ok _, m2) => handle_items_taken solution_key_clues rest m2

/-- The world-state commit of `run_game_turn_sync` (only reached when every
prior step succeeded): new location, progress, visited set, clue/suspect
unions, and the conversation history with the player action plus every
non-narrator scene line appended and the whole log cut to its last 20 entries. -/
def commit_world_state (ws : WorldState) (d : DirectorDecision)
    (scene : List ScriptLine) (player_action : String) : WorldState :=
  { current_location := some d.new_location
    progress := d.progress_update
    visited_locations :=
      if d.new_location ∈ ws.visited_locations then ws.visited_locations
      else ws.visited_locations ++ [d.new_location]
    discovered_clues := pySetList (ws.discovered_clues ++ d.clues_discovered)
    interviewed_suspects := pySetList (ws.interviewed_suspects ++ d.suspects_interviewed)
    conversation_history :=
      lastN 20 (ws.conversation_history ++ [HistEntry.player player_action] ++
        (scene.filter (fun l => l.speaker != "NARRATOR")).map
          (fun l => HistEntry.dialogue l.speaker l.text)) }

/-- `run_game_turn_sync(player_action)` (src/core/game_engine.py), with the two
LLM chains as oracles.  Returns the Python return value (or the exception that
escaped), the persisted world-state document and the persisted world memory:
`world_state.json` is only written by the final `save_json_data`, so every
abort leaves it unchanged, while memory writes persist as they happen. -/
def run_game_turn_sync (chainResult : Except Unit DirectorDecision)
    (narrator : NarratorEvent → Except Unit NarratorScene)
    (solution_key_clues : List KeyClue)
    (player_action : String) (ws : WorldState) (mem : Memory) :
    Except Unit (DirectorDecision × NarratorScene) × WorldState × Memory :=
  match invoke_director chainResult ws mem with
  | (Except.error e, m1) => (Except.error e, ws, m1)
  | (Except.ok d, m1) =>
    match narrator d.narrator_event with
    | Except.error e => (Except.error e, ws, m1)
    | Except.ok scn =>
      match handle_items_taken solution_key_clues d.items_taken m1 with
      | (Except.error e, m2) => (Except.error e, ws, m2)
      | (Except.ok _, m2) =>
        (Except.ok (d, scn), commit_world_state ws d scn.scene player_action, m2)

/-! ## Session manager (`src/core/connection_manager.py`)

Transport handles (websockets) are modelled by `Nat` identities; whether a
`send_text` on a handle succeeds is an oracle `sendOk : Nat → Bool`
(sending on an absent handle, `None`, always fails: `AttributeError`).
A broadcast's observable effect is the list of `(handle, message)` pairs
actually delivered, in iteration order. -/

/-- One entry of `ConnectionManager.players` / `inactive_players`. -/
structure Player where
  ws : Option Nat
  nickname : Option String
  ready : Bool
  has_nickname : Bool
deriving DecidableEq, Repr

/-- The mutable state of `ConnectionManager`. -/
structure ConnMgr where
  players : List (String × Player)
  inactive_players : List (String × Player)
  last_scene_data : List ScriptLine
deriving DecidableEq, Repr

/-- The sanitised roster entries built by `get_player_list`. -/
structure RosterEntry where
  nickname : Option String
  ready : Bool
  status : String
deriving DecidableEq, Repr

/-- Python `{**a, **b}`: keys of `a` in place (value from `b` when shared),
then keys only in `b`, in `b`'s order. -/
def dictMerge {α : Type} (a b : List (String × α)) : List (String × α) :=
  a.map (fun e => (e.1, (dictGet b e.1).getD e.2)) ++
    b.filter (fun e => !(dictContains a e.1))

/-- An outbound message, by payload kind. -/
inductive Msg where
  | chat : String → String → Msg
  | system : String → Msg
  | scene : List ScriptLine → Msg
  | player_list : List (String × RosterEntry) → Msg
deriving DecidableEq, Repr

/-- Python `s[-n:]`. -/
def lastChars (n : Nat) (s : String) : String :=
  String.mk (s.data.drop (s.data.length - n))

/-- `connect(websocket, player_id)`: restore an inactive participant presenting
its old id, rebind the socket of an already-online id, or mint a fresh id
(`fresh` stands for the `uuid4()[:8]` draw).  Returns the updated state and the
resolved id.  The `assign_id` reply and the roster broadcast that follow do not
change this state. -/
def ConnMgr.connect (m : ConnMgr) (w : Nat) (claimed : Option String)
    (fresh : String) : ConnMgr × String :=
  let freshRecord : Player :=
    { ws := some w, nickname := none, ready := false, has_nickname := false }
  let newPlayer : ConnMgr × String :=
    ({ m with players := dictSet m.players fresh freshRecord }, fresh)
  match claimed with
  | none => newPlayer
  | some pid =>
    if pid != "" && (dictContains m.players pid || dictContains m.inactive_players pid) then
      if dictContains m.inactive_players pid then
        match dictGet m.inactive_players pid with
        | some pd =>
          ({ m with
             players := dictSet m.players pid { pd with ws := some w }
             inactive_players := dictRemove m.inactive_players pid },
           pid)
        | none => (m, pid)
      else
        match dictGet m.players pid with
        | some pd =>
          ({ m with players := dictSet m.players pid { pd with ws := some w } }, pid)
        | none => (m, pid)
    else newPlayer

/-- `disconnect(player_id, websocket)`: ignored unless `websocket` is the
currently bound handle for the id; otherwise the record moves to
`inactive_players` with nickname/ready preserved and the handle cleared. -/
def ConnMgr.disconnect (m : ConnMgr) (pid : String) (w : Nat) : ConnMgr :=
  match dictGet m.players pid with
  | none => m
  | some p =>
    if p.ws = some w then
      { m with
        players := dictRemove m.players pid
        inactive_players := dictSet m.inactive_players pid { p with ws := none } }
    else m

/-- `check_all_ready()`: computed over online players whose nickname is truthy. -/
def ConnMgr.check_all_ready (m : ConnMgr) : Bool × Nat × Nat :=
  let players_with_names :=
    (m.players.map (fun e => e.2)).filter (fun p => truthyStr p.nickname)
  if players_with_names.isEmpty then (false, 0, 0)
  else
    let ready_count := players_with_names.countP (fun p => p.ready)
    let total := players_with_names.length
    (ready_count == total, ready_count, total)

/-- `get_player_list()`: online entries, then offline entries that have a
nickname, merged as `{**active, **inactive}`. -/
def ConnMgr.get_player_list (m : ConnMgr) : List (String × RosterEntry) :=
  let active := m.players.map (fun e =>
    (e.1, { nickname := e.2.nickname, ready := e.2.ready, status := "online" : RosterEntry }))
  let inactive := (m.inactive_players.filter (fun e => truthyStr e.2.nickname)).map (fun e =>
    (e.1, { nickname := e.2.nickname, ready := e.2.ready, status := "offline" : RosterEntry }))
  dictMerge active inactive

/-- The fan-out loop of `broadcast` (chat): each `send_text` is NOT wrapped in
try/except, so a failing send raises and the remaining recipients are skipped.
Returns the deliveries made before any failure and whether the loop completed. -/
def chatSends (sendOk : Nat → Bool) (sender_id sender_name text : String) :
    List (String × Player) → List (Nat × Msg) × Bool
  | [] => ([], true)
  | e :: rest =>
    let tag := if e.1 == sender_id then "You" else sender_name
    match e.2.ws with
    | some w =>
      if sendOk w then
        let r := chatSends sendOk sender_id sender_name text rest
        ((w, Msg.chat tag text) :: r.1, r.2)
      else ([], false)
    | none => ([], false)

/-- `broadcast(sender_id, message)` (chat fan-out). -/
def ConnMgr.broadcast (m : ConnMgr) (sendOk : Nat → Bool)
    (sender_id text : String) : List (Nat × Msg) × Bool :=
  match dictGet m.players sender_id with
  | none => ([], true)
  | some sender_info =>
    let sender_name :=
      if truthyStr sender_info.nickname then sender_info.nickname.getD ""
      else String.append "Detective-" (lastChars 3 sender_id)
    chatSends sendOk sender_id sender_name text m.players

/-- `broadcast_system(message)`: each send individually wrapped in try/except,
so a failing recipient is skipped and the loop continues. -/
def ConnMgr.broadcast_system (m : ConnMgr) (sendOk : Nat → Bool)
    (text : String) : List (Nat × Msg) :=
  m.players.filterMap (fun e =>
    match e.2.ws with
    | some w => if sendOk w then some (w, Msg.system text) else none
    | none => none)

/-- `broadcast_scene(scene)`: stores the scene for resync, then fans out with
per-recipient try/except. -/
def ConnMgr.broadcast_scene (m : ConnMgr) (sendOk : Nat → Bool)
    (scn : List ScriptLine) : ConnMgr × List (Nat × Msg) :=
  ({ m with last_scene_data := scn },
   m.players.filterMap (fun e =>
     match e.2.ws with
     | some w => if sendOk w then some (w, Msg.scene scn) else none
     | none => none))

/-- `broadcast_player_list()`: roster fan-out with per-recipient try/except. -/
def ConnMgr.broadcast_player_list (m : ConnMgr) (sendOk : Nat → Bool) :
    List (Nat × Msg) :=
  m.players.filterMap (fun e =>
    match e.2.ws with
    | some w => if sendOk w then some (w, Msg.player_list (ConnMgr.get_player_list m)) else none
    | none => none)

/-! ## Helper lemmas about the dict model -/

theorem dictGet_dictSet_self {α : Type} (d : List (String × α)) (k : String) (v : α) :
    dictGet (dictSet d k v) k = some v := by
  induction d with
  | nil => simp [dictSet, dictGet]
  | cons e rest ih =>
    by_cases h : e.1 = k
    · simp [dictSet, dictGet, h]
    · simp [dictSet, dictGet, h, ih]

theorem dictGet_dictSet_ne {α : Type} (d : List (String × α)) (k k' : String) (v : α)
    (h : k' ≠ k) : dictGet (dictSet d k v) k' = dictGet d k' := by
  have hk : ¬ (k = k') := fun hh => h hh.symm
  induction d with
  | nil => simp [dictSet, dictGet, hk]
  | cons e rest ih =>
    by_cases he : e.1 = k
    · simp [dictSet, dictGet, he, hk]
    · simp [dictSet, dictGet, he, ih]

theorem dictGet_dictRemove_self {α : Type} (d : List (String × α)) (k : String) :
    dictGet (dictRemove d k) k = none := by
  induction d with
  | nil => simp [dictRemove, dictGet]
  | cons e rest ih =>
    by_cases h : e.1 = k
    · simpa [dictRemove, h] using ih
    · simpa [dictRemove, dictGet, h] using ih

theorem countP_dictRemove_self {α : Type} (d : List (String × α)) (k : String) :
    (dictRemove d k).countP (fun e => e.1 == k) = 0 := by
  induction d with
  | nil => simp [dictRemove]
  | cons e rest ih =>
    by_cases h : e.1 = k
    · simp [dictRemove, h] at ih ⊢
    · simp [dictRemove, List.countP_cons, h] at ih ⊢

theorem dictSet_of_get_none {α : Type} (d : List (String × α)) (k : String) (v : α)
    (h : dictGet d k = none) : dictSet d k v = d ++ [(k, v)] := by
  induction d with
  | nil => simp [dictSet]
  | cons e rest ih =>
    by_cases he : e.1 = k
    · simp [dictGet, he] at h
    · simp [dictGet, he] at h
      simp [dictSet, he, ih h]

theorem dictContains_of_get_some {α : Type} {d : List (String × α)} {k : String} {v : α}
    (h : dictGet d k = some v) : dictContains d k = true := by
  simp [dictContains, h]

theorem getD_ensuredInv (inv : List (String × List String)) (c : String) :
    (dictGet (ensuredInv inv c) c).getD [] = (dictGet inv c).getD [] := by
  unfold ensuredInv
  by_cases h : dictContains inv c = true
  · simp [h]
  · have hn : dictGet inv c = none :=
      Option.not_isSome_iff_eq_none.mp (by simpa [dictContains] using h)
    simp [h, hn, dictGet_dictSet_self]

/-! ## Behaviour lemmas for `transfer_item_to_inventory` -/

theorem transfer_of_get_none {mem : Memory} {item_id container : String}
    (h : dictGet mem.generated_items item_id = none) :
    transfer_item_to_inventory mem item_id container = (Except.ok false, mem) := by
  unfold transfer_item_to_inventory
  rw [h]

theorem transfer_of_nonportable {mem : Memory} {item_id container : String} {item : Item}
    (h : dictGet mem.generated_items item_id = some item)
    (hp : item.portable.getD true = false) :
    transfer_item_to_inventory mem item_id container = (Except.ok false, mem) := by
  unfold transfer_item_to_inventory
  rw [h]
  simp [hp]

theorem transfer_of_already {mem : Memory} {item_id container : String} {item : Item}
    (h : dictGet mem.generated_items item_id = some item)
    (hp : item.portable.getD true = true)
    (hin : item_id ∈ (dictGet mem.team_inventory container).getD []) :
    transfer_item_to_inventory mem item_id container = (Except.ok true, mem) := by
  unfold transfer_item_to_inventory
  rw [h]
  simp [hp, getD_ensuredInv, hin]

theorem transfer_fresh {mem : Memory} {item_id container : String} {item : Item}
    (h : dictGet mem.generated_items item_id = some item)
    (hp : item.portable.getD true = true)
    (hin : item_id ∉ (dictGet mem.team_inventory container).getD []) :
    transfer_item_to_inventory mem item_id container = (Except.error (), mem) ∨
    (∃ m1 : Memory,
      transfer_item_to_inventory mem item_id container = (Except.ok true, m1) ∧
      dictGet m1.generated_items item_id =
        some { item with
          current_location := some (String.append "inventory." container)
          taken := some true } ∧
      (dictGet m1.team_inventory container).getD [] =
        ((dictGet mem.team_inventory container).getD []) ++ [item_id]) := by
  unfold transfer_item_to_inventory
  rw [h]
  simp only [hp, Bool.true_eq_false, if_false, getD_ensuredInv, hin, ite_false]
  repeat' split
  all_goals first
    | exact Or.inl rfl
    | exact Or.inr ⟨_, rfl,
        by simpa using dictGet_dictSet_self mem.generated_items item_id _,
        by simp [dictGet_dictSet_self, getD_ensuredInv]⟩

/-! ## Claims about `transfer_item_to_inventory` -/

/-- C3: for every item id and container, if the item id is unknown to the
World Memory Store or the item's portable flag is false,
`transfer_item_to_inventory` returns `False` without raising, and the stored
memory is left unchanged by the call. -/
theorem c3_transfer_negative_paths (mem : Memory) (item_id container : String)
    (h : dictGet mem.generated_items item_id = none ∨
      ∃ item : Item, dictGet mem.generated_items item_id = some item ∧
        item.portable = some false) :
    transfer_item_to_inventory mem item_id container = (Except.ok false, mem) := by
  rcases h with h | ⟨item, h, hp⟩
  · exact transfer_of_get_none h
  · exact transfer_of_nonportable h (by simp [hp])

/-- Witness for C3: an id absent from the default memory is rejected and the
store is untouched. -/
theorem c3_transfer_negative_paths_witness :
    transfer_item_to_inventory default_memory "ghost" "bag" =
      (Except.ok false, default_memory) :=
  c3_transfer_negative_paths default_memory "ghost" "bag" (Or.inl rfl)

/-- C4: `transfer_item_to_inventory` is idempotent — a second call with the
same item id and container leaves the persisted memory exactly as after the
first call, and when the first call succeeded (so the item is in the
container) the second call still reports success. -/
theorem c4_transfer_idempotent (mem : Memory) (item_id container : String) :
    (transfer_item_to_inventory
        (transfer_item_to_inventory mem item_id container).2 item_id container).2 =
      (transfer_item_to_inventory mem item_id container).2 ∧
    ((transfer_item_to_inventory mem item_id container).1 = Except.ok true →
      item_id ∈ (dictGet (transfer_item_to_inventory mem item_id container).2.team_inventory
          container).getD [] ∧
      (transfer_item_to_inventory
          (transfer_item_to_inventory mem item_id container).2 item_id container).1 =
        Except.ok true) := by
  cases hget : dictGet mem.generated_items item_id with
  | none => simp [transfer_of_get_none hget]
  | some item =>
    by_cases hp : item.portable.getD true = false
    · simp [transfer_of_nonportable hget hp]
    · have hp' : item.portable.getD true = true := by
        revert hp
        cases item.portable.getD true <;> simp
      by_cases hin : item_id ∈ (dictGet mem.team_inventory container).getD []
      · simp [transfer_of_already hget hp' hin, hin]
      · rcases transfer_fresh hget hp' hin with hcrash | ⟨m1, hok, hitem, hinv⟩
        · simp [hcrash]
        · have hmem2 : item_id ∈ (dictGet m1.team_inventory container).getD [] := by
            rw [hinv]
            exact List.mem_append_right _ (List.mem_singleton_self _)
          have h2 := transfer_of_already hitem (by simpa using hp') hmem2
          simp [hok, h2, hmem2]

/-- Concrete store for the C4 witness: one portable item not yet taken. -/
def memC4 : Memory :=
  { generated_locations := []
    generated_items := [("i1",
      { id := "i1", name := "Matchbook", description := "a worn matchbook"
        portable := some true, category := some "small_object"
        original_location := none, current_location := some "The Silver Gull"
        inspected := some false, taken := some false, is_key_clue := none })]
    generated_npcs := []
    team_inventory := [("bag", []), ("pockets", [])]
    player_notes := [] }

/-- Witness for C4 at a concrete store where the first transfer succeeds. -/
theorem c4_transfer_idempotent_witness :
    (transfer_item_to_inventory
        (transfer_item_to_inventory memC4 "i1" "bag").2 "i1" "bag").2 =
      (transfer_item_to_inventory memC4 "i1" "bag").2 ∧
    ("i1" ∈ (dictGet (transfer_item_to_inventory memC4 "i1" "bag").2.team_inventory
        "bag").getD [] ∧
      (transfer_item_to_inventory
          (transfer_item_to_inventory memC4 "i1" "bag").2 "i1" "bag").1 =
        Except.ok true) := by
  have h := c4_transfer_idempotent memC4 "i1" "bag"
  exact ⟨h.1, h.2 rfl⟩

/-- C10: a stored item whose record has no `portable` field at all is treated
as portable — the call never returns the not-portable/unknown rejection
(`False`), and whenever it returns normally it reports success with the item
id a member of the requested container. -/
theorem c10_missing_portable_defaults_true (mem : Memory) (item_id container : String)
    (item : Item) (h : dictGet mem.generated_items item_id = some item)
    (hport : item.portable = none) :
    (transfer_item_to_inventory mem item_id container).1 ≠ Except.ok false ∧
    (∀ b : Bool, (transfer_item_to_inventory mem item_id container).1 = Except.ok b →
      b = true ∧
      item_id ∈ (dictGet (transfer_item_to_inventory mem item_id container).2.team_inventory
          container).getD []) := by
  have hp' : item.portable.getD true = true := by simp [hport]
  by_cases hin : item_id ∈ (dictGet mem.team_inventory container).getD []
  · have hA := transfer_of_already h hp' hin
    simp [hA, hin]
  · rcases transfer_fresh h hp' hin with hcrash | ⟨m1, hok, hitem, hinv⟩
    · simp [hcrash]
    · have hmem2 : item_id ∈ (dictGet m1.team_inventory container).getD [] := by
        rw [hinv]
        exact List.mem_append_right _ (List.mem_singleton_self _)
      simp [hok, hmem2]

/-- The C10 witness item: its record has no `portable` field. -/
def itemC10 : Item :=
  { id := "i2", name := "Cigarette Case", description := "silver, dented"
    portable := none, category := some "small_object"
    original_location := none, current_location := some "The Silver Gull"
    inspected := some false, taken := some false, is_key_clue := none }

/-- Concrete store for the C10 witness. -/
def memC10 : Memory :=
  { generated_locations := []
    generated_items := [("i2", itemC10)]
    generated_npcs := []
    team_inventory := [("bag", []), ("pockets", [])]
    player_notes := [] }

/-- Witness for C10. -/
theorem c10_missing_portable_defaults_true_witness :
    (transfer_item_to_inventory memC10 "i2" "bag").1 ≠ Except.ok false ∧
    (∀ b : Bool, (transfer_item_to_inventory memC10 "i2" "bag").1 = Except.ok b →
      b = true ∧
      "i2" ∈ (dictGet (transfer_item_to_inventory memC10 "i2" "bag").2.team_inventory
          "bag").getD []) :=
  c10_missing_portable_defaults_true memC10 "i2" "bag" itemC10 rfl rfl

/-- The C2 item: portable, not yet in any container, and its original location
is tracked in the store. -/
def itemC2 : Item :=
  { id := "g1", name := "Torn Sleeve", description := "a torn paper sleeve"
    portable := some true, category := some "small_object"
    original_location := some "loc1", current_location := some "loc1"
    inspected := some false, taken := some false, is_key_clue := none }

/-- The C2 store: the tracked location's `"items"` list holds the plain id
string `"g1"`, exactly the shape `_save_generated_content` writes
(`"items": [item.get('id') for item in ...]`). -/
def memC2 : Memory :=
  { generated_locations :=
      [("loc1", { items := some [LocEntry.idStr "g1"], npcs := [], last_visited := some 1 })]
    generated_items := [("g1", itemC2)]
    generated_npcs := []
    team_inventory := [("bag", []), ("pockets", [])]
    player_notes := [] }

/-- C2 (code bug): on a store shaped exactly as the repository itself writes
it, a portable item not yet in the container does NOT transfer with success —
the removal step raises (`AttributeError`: a plain string has no `.get`)
before `save_memory`, so the call exits abnormally with the store unchanged. -/
theorem c2_transfer_raises_on_repo_written_location_items :
    dictGet memC2.generated_items "g1" = some itemC2 ∧
    itemC2.portable = some true ∧
    "g1" ∉ (dictGet memC2.team_inventory "bag").getD [] ∧
    transfer_item_to_inventory memC2 "g1" "bag" = (Except.error (), memC2) := by
  refine ⟨rfl, rfl, by decide, rfl⟩

/-! ## Claims about `prune_old_locations` -/

theorem mem_insertDescBy {α : Type} (key : α → Int) (x a : α) (l : List α)
    (h : a ∈ insertDescBy key x l) : a = x ∨ a ∈ l := by
  induction l with
  | nil => simpa [insertDescBy] using h
  | cons y ys ih =>
    unfold insertDescBy at h
    by_cases hk : key x > key y
    · simp only [hk, if_true, List.mem_cons] at h
      rcases h with h | h | h
      · exact Or.inl h
      · exact Or.inr (by simp [h])
      · exact Or.inr (List.mem_cons_of_mem _ h)
    · simp only [hk, if_false, List.mem_cons] at h
      rcases h with h | h
      · exact Or.inr (by simp [h])
      · rcases ih h with h' | h'
        · exact Or.inl h'
        · exact Or.inr (List.mem_cons_of_mem _ h')

theorem mem_foldl_insertDescBy {α : Type} (key : α → Int) (l : List α) :
    ∀ (acc : List α) (a : α),
      a ∈ l.foldl (fun acc x => insertDescBy key x acc) acc → a ∈ acc ∨ a ∈ l := by
  induction l with
  | nil => intro acc a h; exact Or.inl h
  | cons x xs ih =>
    intro acc a h
    rcases ih (insertDescBy key x acc) a h with h' | h'
    · rcases mem_insertDescBy key x a acc h' with h'' | h''
      · exact Or.inr (by simp [h''])
      · exact Or.inl h''
    · exact Or.inr (List.mem_cons_of_mem _ h')

theorem mem_stableSortDescBy {α : Type} (key : α → Int) (l : List α) (a : α)
    (h : a ∈ stableSortDescBy key l) : a ∈ l := by
  rcases mem_foldl_insertDescBy key l [] a h with h' | h'
  · simp at h'
  · exact h'

/-- C5 amended: `prune_old_locations` removes nothing when at most
`keep_count` locations are tracked, and it only ever drops whole location
records (every surviving entry is an entry of the original store) — but it has
no key-clue guard, so beyond `keep_count` it may remove a location hosting an
un-taken key-clue item (see the counterexample). -/
theorem c5_amended_prune_bounds (mem : Memory) (keep_count : Nat) :
    (mem.generated_locations.length ≤ keep_count →
      prune_old_locations mem keep_count = mem) ∧
    (∀ e : String × LocationData,
      e ∈ (prune_old_locations mem keep_count).generated_locations →
      e ∈ mem.generated_locations) := by
  constructor
  · intro h
    unfold prune_old_locations
    simp [h]
  · intro e he
    unfold prune_old_locations at he
    by_cases h : mem.generated_locations.length ≤ keep_count
    · simpa [h] using he
    · simp only [h, if_false] at he
      exact mem_stableSortDescBy _ _ _ (List.mem_of_mem_take he)

/-- Location record hosting the un-taken key clue in the C5 counterexample. -/
def locDataB : LocationData := { items := none, npcs := [], last_visited := some 1 }

/-- The other, more recently visited location of the C5 counterexample. -/
def locDataA : LocationData := { items := none, npcs := [], last_visited := some 5 }

/-- C5 counterexample store: `locB` hosts the un-taken key clue `c1` but was
visited before `locA`. -/
def memC5 : Memory :=
  { generated_locations := [("locA", locDataA), ("locB", locDataB)]
    generated_items := [("c1",
      { id := "c1", name := "Iris Bell Letter", description := "a key clue"
        portable := some true, category := some "evidence"
        original_location := some "locB", current_location := some "locB"
        inspected := some false, taken := some false, is_key_clue := some true })]
    generated_npcs := []
    team_inventory := [("bag", []), ("pockets", [])]
    player_notes := [] }

/-- C5 counterexample: pruning to one location removes `locB` even though it
currently hosts an un-taken key-clue item. -/
theorem c5_counterexample_prune_drops_key_clue_host :
    hostsUntakenKeyClue memC5 "locB" = true ∧
    dictContains memC5.generated_locations "locB" = true ∧
    dictContains (prune_old_locations memC5 1).generated_locations "locB" = false := by
  decide

/-- Witness for the amended C5. -/
theorem c5_amended_prune_bounds_witness :
    prune_old_locations memC5 2 = memC5 ∧
    ("locA", locDataA) ∈ memC5.generated_locations := by
  exact ⟨(c5_amended_prune_bounds memC5 2).1 (by decide),
    (c5_amended_prune_bounds memC5 1).2 ("locA", locDataA) (by decide)⟩

/-! ## Claims about the session manager -/

/-- C6 amended: for the system notice, scene broadcast and roster update the
per-recipient try/except isolates failures: every online participant whose own
send succeeds receives the message no matter which other sends fail.  The chat
fan-out (`broadcast`) has no such isolation — see the counterexample. -/
theorem c6_amended_isolated_broadcasts (m : ConnMgr) (sendOk : Nat → Bool)
    (pid : String) (info : Player) (w : Nat) (text : String) (scn : List ScriptLine)
    (hmem : (pid, info) ∈ m.players) (hws : info.ws = some w)
    (hok : sendOk w = true) :
    (w, Msg.system text) ∈ ConnMgr.broadcast_system m sendOk text ∧
    (w, Msg.scene scn) ∈ (ConnMgr.broadcast_scene m sendOk scn).2 ∧
    (w, Msg.player_list (ConnMgr.get_player_list m)) ∈
      ConnMgr.broadcast_player_list m sendOk := by
  refine ⟨?_, ?_, ?_⟩ <;>
    exact List.mem_filterMap.mpr ⟨(pid, info), hmem, by simp [hws, hok]⟩

/-- First roster entry of the C6 scenario (its socket send fails). -/
def playerP1 : Player :=
  { ws := some 1, nickname := some "Ada", ready := true, has_nickname := true }

/-- Second roster entry of the C6 scenario (its socket send works). -/
def playerP2 : Player :=
  { ws := some 2, nickname := some "Bo", ready := true, has_nickname := true }

/-- The C6 manager state: two online participants. -/
def mgrC6 : ConnMgr :=
  { players := [("p1", playerP1), ("p2", playerP2)]
    inactive_players := []
    last_scene_data := [] }

/-- The C6 transport oracle: sending on socket 1 raises, everything else works. -/
def sendOkC6 : Nat → Bool := fun w => w != 1

/-- C6 counterexample: in the chat fan-out a failed send to the first
participant aborts the loop, so the second online participant — whose own
socket works — receives nothing. -/
theorem c6_counterexample_chat_not_isolated :
    ("p2", playerP2) ∈ mgrC6.players ∧ playerP2.ws = some 2 ∧ sendOkC6 2 = true ∧
    ConnMgr.broadcast mgrC6 sendOkC6 "p1" "any news?" = ([], false) := by
  refine ⟨by decide, rfl, rfl, rfl⟩

/-- Witness for the amended C6: participant `p2` still receives the three
caught broadcasts although `p1`'s socket fails. -/
theorem c6_amended_isolated_broadcasts_witness :
    (2, Msg.system "ping") ∈ ConnMgr.broadcast_system mgrC6 sendOkC6 "ping" ∧
    (2, Msg.scene []) ∈ (ConnMgr.broadcast_scene mgrC6 sendOkC6 []).2 ∧
    (2, Msg.player_list (ConnMgr.get_player_list mgrC6)) ∈
      ConnMgr.broadcast_player_list mgrC6 sendOkC6 :=
  c6_amended_isolated_broadcasts mgrC6 sendOkC6 "p2" playerP2 2 "ping" []
    (by decide) rfl rfl

/-- C7: a participant that disconnects (socket `w`) and reconnects presenting
its previously-issued id gets back a record with exactly the nickname and
ready state it had at disconnect (only the transport handle is new), and
afterwards the roster holds exactly one entry for that id (online) and none
among the offline records. -/
theorem c7_reconnect_restores_identity (m : ConnMgr) (pid : String) (p : Player)
    (w w2 : Nat) (fresh : String)
    (hp : dictGet m.players pid = some p) (hws : p.ws = some w) (hpid : pid ≠ "") :
    dictGet ((ConnMgr.connect (ConnMgr.disconnect m pid w) w2 (some pid) fresh).1).players
        pid = some { p with ws := some w2 } ∧
    ((ConnMgr.connect (ConnMgr.disconnect m pid w) w2 (some pid) fresh).1).players.countP
        (fun e => e.1 == pid) = 1 ∧
    ((ConnMgr.connect (ConnMgr.disconnect m pid w) w2 (some pid) fresh).1).inactive_players.countP
        (fun e => e.1 == pid) = 0 := by
  have hm1 : ConnMgr.disconnect m pid w =
      { m with
        players := dictRemove m.players pid
        inactive_players := dictSet m.inactive_players pid { p with ws := none } } := by
    unfold ConnMgr.disconnect
    rw [hp]
    simp [hws]
  rw [hm1]
  have hIget : dictGet (dictSet m.inactive_players pid { p with ws := none }) pid =
      some { p with ws := none } :=
    dictGet_dictSet_self m.inactive_players pid _
  have hIcont : dictContains (dictSet m.inactive_players pid { p with ws := none }) pid
      = true := by
    simp [dictContains, hIget]
  have hm2 : (ConnMgr.connect
      ({ m with
         players := dictRemove m.players pid
         inactive_players := dictSet m.inactive_players pid { p with ws := none } })
      w2 (some pid) fresh).1 =
      { m with
        players := dictSet (dictRemove m.players pid) pid { p with ws := some w2 }
        inactive_players :=
          dictRemove (dictSet m.inactive_players pid { p with ws := none }) pid } := by
    unfold ConnMgr.connect
    simp [bne_iff_ne, hpid, hIcont, hIget]
  rw [hm2]
  refine ⟨dictGet_dictSet_self _ _ _, ?_, countP_dictRemove_self _ _⟩
  rw [dictSet_of_get_none _ _ _ (dictGet_dictRemove_self m.players pid)]
  rw [List.countP_append]
  simp [countP_dictRemove_self]

/-- The online participant of the C7 witness scenario. -/
def pC7 : Player :=
  { ws := some 1, nickname := some "Ada", ready := true, has_nickname := true }

/-- The C7 witness manager state. -/
def mgrC7 : ConnMgr :=
  { players := [("p1", pC7)], inactive_players := [], last_scene_data := [] }

/-- Witness for C7: disconnect then reconnect of `p1` restores nickname `Ada`
and ready `true` on the new socket, with a single roster entry. -/
theorem c7_reconnect_restores_identity_witness :
    dictGet ((ConnMgr.connect (ConnMgr.disconnect mgrC7 "p1" 1) 7 (some "p1") "f8").1).players
        "p1" = some { pC7 with ws := some 7 } ∧
    ((ConnMgr.connect (ConnMgr.disconnect mgrC7 "p1" 1) 7 (some "p1") "f8").1).players.countP
        (fun e => e.1 == "p1") = 1 ∧
    ((ConnMgr.connect (ConnMgr.disconnect mgrC7 "p1" 1) 7 (some "p1") "f8").1).inactive_players.countP
        (fun e => e.1 == "p1") = 0 :=
  c7_reconnect_restores_identity mgrC7 "p1" pC7 1 7 "f8" rfl rfl (by decide)

/-- C8: `check_all_ready` is computed only over participants with a (truthy)
nickname: with `n` nicknamed participants of which `r` are ready it returns
`(r == n, r, n)` when `n > 0`, and `(false, 0, 0)` when the nicknamed set is
empty — an empty named set is never all-ready. -/
theorem c8_check_all_ready_counts (m : ConnMgr) (r n : Nat)
    (hn : ((m.players.map (fun e => e.2)).filter (fun p => truthyStr p.nickname)).length = n)
    (hr : ((m.players.map (fun e => e.2)).filter
        (fun p => truthyStr p.nickname)).countP (fun p => p.ready) = r) :
    ConnMgr.check_all_ready m = if n = 0 then (false, 0, 0) else (r == n, r, n) := by
  unfold ConnMgr.check_all_ready
  by_cases he : ((m.players.map (fun e => e.2)).filter
      (fun p => truthyStr p.nickname)).isEmpty = true
  · have hl := List.isEmpty_iff.mp he
    rw [hl] at hn hr
    simp at hn hr
    simp [he, hn.symm, hr.symm]
  · have h0 : ((m.players.map (fun e => e.2)).filter
        (fun p => truthyStr p.nickname)) ≠ [] := by
      intro hh
      exact he (by simp [hh])
    have h0' : n ≠ 0 := by
      rw [← hn]
      simpa [List.length_eq_zero] using h0
    simp [he, hn, hr, h0']

/-- The C8 witness manager: two nicknamed participants, one ready, plus one
participant without a nickname that must be ignored. -/
def mgrC8 : ConnMgr :=
  { players :=
      [("p1", { ws := some 1, nickname := some "Ada", ready := true, has_nickname := true }),
       ("p2", { ws := some 2, nickname := some "Bo", ready := false, has_nickname := true }),
       ("p3", { ws := some 3, nickname := none, ready := true, has_nickname := false })]
    inactive_players := []
    last_scene_data := [] }

/-- Witness for C8: `r = 1`, `n = 2` gives `(false, 1, 2)`. -/
theorem c8_check_all_ready_counts_witness :
    ConnMgr.check_all_ready mgrC8 =
      if (2 : Nat) = 0 then (false, 0, 0) else (((1 : Nat) == (2 : Nat)), 1, 2) :=
  c8_check_all_ready_counts mgrC8 1 2 rfl rfl


/-! ## Claims about the turn pipeline -/

/-- C1 amended: if the decision-engine call raises, the turn aborts with both
the World State Document and the World Memory Store unchanged; but if the
rendering-engine call raises, only the World State Document is unchanged — the
World Memory Store already holds everything `_save_generated_content`
persisted during the decision step (generated items/NPCs, the location record
and any taken-item transfers). -/
theorem c1_amended_abort_semantics (chainResult : Except Unit DirectorDecision)
    (narrator : NarratorEvent → Except Unit NarratorScene)
    (sol : List KeyClue) (action : String) (ws : WorldState) (mem : Memory) :
    (chainResult = Except.error () →
      run_game_turn_sync chainResult narrator sol action ws mem =
        (Except.error (), ws, mem)) ∧
    (∀ d : DirectorDecision, chainResult = Except.ok d →
      (save_generated_content d (get_current_location ws) mem).1 = Except.ok () →
      narrator d.narrator_event = Except.error () →
      run_game_turn_sync chainResult narrator sol action ws mem =
        (Except.error (), ws, (save_generated_content d (get_current_location ws) mem).2)) := by
  constructor
  · intro he
    subst he
    rfl
  · intro d he hsave hnar
    subst he
    unfold run_game_turn_sync invoke_director
    rcases hsg : save_generated_content d (get_current_location ws) mem with ⟨r1, m1⟩
    rw [hsg] at hsave
    simp only at hsave
    subst hsave
    simp only [hsg, hnar]

/-- The decision of the C1 counterexample: it generates one flavour item. -/
def dC1 : DirectorDecision :=
  { narrator_event :=
      { event_type := "flavor_moment", description := "dust swirls"
        items_visible := [], npcs_present := [], dialogue := none
        npc_emotion := none, block_reason := none }
    generated_items := [
      { id := "gi1", name := "Ash Tray", description := "cracked glass"
        portable := some true, category := some "small_object" }]
    generated_npcs := []
    interactables := []
    new_location := "The Silver Gull"
    clues_discovered := []
    suspects_interviewed := []
    items_taken := []
    progress_update := 0 }

/-- The world state of the C1 counterexample. -/
def wsC1 : WorldState :=
  { current_location := some "The Silver Gull", progress := 0
    visited_locations := ["The Silver Gull"], discovered_clues := []
    interviewed_suspects := [], conversation_history := [] }

/-- A rendering engine that always raises. -/
def narFailC1 : NarratorEvent → Except Unit NarratorScene := fun _ => Except.error ()

/-- C1 counterexample: the decision step succeeds and generates an item, the
rendering step raises — the turn aborts (the World State Document is
unchanged), yet the World Memory Store has been mutated, so the claimed
"no partial commit by that turn" fails. -/
theorem c1_counterexample_partial_commit :
    exceptIsError
      (run_game_turn_sync (Except.ok dC1) narFailC1 [] "look around" wsC1 default_memory).1
      = true ∧
    (run_game_turn_sync (Except.ok dC1) narFailC1 [] "look around" wsC1 default_memory).2.1
      = wsC1 ∧
    (run_game_turn_sync (Except.ok dC1) narFailC1 [] "look around" wsC1 default_memory).2.2
      ≠ default_memory := by
  refine ⟨rfl, rfl, by decide⟩

/-- Witness for the amended C1, at the counterexample's inputs. -/
theorem c1_amended_abort_semantics_witness :
    run_game_turn_sync (Except.error ()) narFailC1 [] "look around" wsC1 default_memory =
      (Except.error (), wsC1, default_memory) ∧
    run_game_turn_sync (Except.ok dC1) narFailC1 [] "look around" wsC1 default_memory =
      (Except.error (), wsC1,
        (save_generated_content dC1 (get_current_location wsC1) default_memory).2) := by
  constructor
  · exact (c1_amended_abort_semantics (Except.error ()) narFailC1 [] "look around"
      wsC1 default_memory).1 rfl
  · exact (c1_amended_abort_semantics (Except.ok dC1) narFailC1 [] "look around"
      wsC1 default_memory).2 dC1 rfl rfl rfl

/-- C9: on every committed turn, the committed conversation history equals the
previous history with one entry for the player's action appended, then one
entry per rendered scene line whose speaker is not `"NARRATOR"` in scene
order, the whole list truncated to its last 20 entries. -/
theorem c9_conversation_history_commit (chainResult : Except Unit DirectorDecision)
    (narrator : NarratorEvent → Except Unit NarratorScene)
    (sol : List KeyClue) (action : String) (ws : WorldState) (mem : Memory)
    (d : DirectorDecision) (scn : NarratorScene) (ws' : WorldState) (mem' : Memory)
    (h : run_game_turn_sync chainResult narrator sol action ws mem =
      (Except.ok (d, scn), ws', mem')) :
    ws'.conversation_history =
      lastN 20 (ws.conversation_history ++ [HistEntry.player action] ++
        (scn.scene.filter (fun l => l.speaker != "NARRATOR")).map
          (fun l => HistEntry.dialogue l.speaker l.text)) := by
  unfold run_game_turn_sync at h
  split at h
  · simp at h
  · split at h
    · simp at h
    · split at h
      · simp at h
      · simp only [Prod.mk.injEq, Except.ok.injEq] at h
        obtain ⟨⟨hd, hs⟩, hw, hm⟩ := h
        subst hd
        subst hs
        subst hw
        rfl

/-- The decision of the C9 witness turn. -/
def dC9 : DirectorDecision :=
  { narrator_event :=
      { event_type := "npc_dialogue", description := "Miriam answers"
        items_visible := [], npcs_present := ["Miriam Kline"]
        dialogue := some "Who is asking?", npc_emotion := some "cold"
        block_reason := none }
    generated_items := []
    generated_npcs := []
    interactables := ["Miriam Kline"]
    new_location := "The Silver Gull"
    clues_discovered := []
    suspects_interviewed := ["Miriam Kline"]
    items_taken := []
    progress_update := 1 }

/-- The scene of the C9 witness turn: one narrator line, one character line. -/
def scnC9 : NarratorScene :=
  { scene := [
      { speaker := "NARRATOR", style := "low", text := "Rain taps the glass."
        voice_suggestion := "", audio_url := "" },
      { speaker := "MIRIAM KLINE", style := "cold", text := "Who is asking?"
        voice_suggestion := "Zephyr", audio_url := "" }] }

/-- A rendering engine returning the C9 witness scene. -/
def narOkC9 : NarratorEvent → Except Unit NarratorScene := fun _ => Except.ok scnC9

/-- The committed C9 witness turn. -/
def runC9 : Except Unit (DirectorDecision × NarratorScene) × WorldState × Memory :=
  run_game_turn_sync (Except.ok dC9) narOkC9 [] "ask Miriam" wsC1 default_memory

/-- Witness for C9: the committed history is the player action plus the single
non-narrator line. -/
theorem c9_conversation_history_commit_witness :
    runC9.2.1.conversation_history =
      lastN 20 (wsC1.conversation_history ++ [HistEntry.player "ask Miriam"] ++
        (scnC9.scene.filter (fun l => l.speaker != "NARRATOR")).map
          (fun l => HistEntry.dialogue l.speaker l.text)) :=
  c9_conversation_history_commit (Except.ok dC9) narOkC9 [] "ask Miriam" wsC1
    default_memory dC9 scnC9 runC9.2.1 runC9.2.2 rfl
